import Mathlib

/-!
Verification development for the DB-medical front-end (prescription
lifecycle and dispatch workflow).

The definitions below are a shallow embedding of the TypeScript sources:

* `src/Frontend/src/types/api.ts`  — the data model (roles, statuses,
  prescription summaries/details, pharmacies);
* `src/Frontend/src/lib/api.ts`    — `apiRequest`, the generic remote
  client and its error-message computation;
* `src/Frontend/src/components/PrescriptionsPanel.tsx` — the lifecycle
  manager: `getNextStatus`, `loadPrescriptions`, `selectPrescription`,
  `handleAdvanceStatus`;
* `src/Frontend/src/components/PharmacySearchPanel.tsx` — the dispatch
  coordinator: `handleSearch`, `handleDispatch`;
* `src/Frontend/src/App.tsx` — `refreshPendingReceivedCount`, the
  pending-count aggregator.

React component state is modelled by explicit state records threaded
through the handlers; `setState` calls become functional updates applied
in program order.  Each handler returns the final state together with the
ordered trace of observable steps it performed: the network requests it
issued and the `onStatusUpdated` notification it emitted.  Remote
responses are supplied as an environment (`Api`, `PharmacyApi`), one
response per endpoint, mirroring the value the corresponding `await
apiRequest(...)` would have produced: `.ok` for a 2xx response and
`.error` for a thrown value caught by the handler's `catch` block.
-/

namespace DBMedical

/-! ### Data model (`types/api.ts`) -/

inductive Role
  | DOCTOR
  | PHARMACIST
deriving DecidableEq, Repr

inductive PrescriptionStatus
  | CREATED
  | RECEIVED
  | DISPENSING
  | COMPLETED
deriving DecidableEq, Repr

structure PrescriptionSummary where
  prescriptionId : Nat
  medicalRecordId : Nat
  issueDate : String
  status : PrescriptionStatus
  diagnosis : String
  patientName : String
deriving DecidableEq, Repr

structure PharmacySummary where
  id : Nat
  name : String
  address : String
  phone : Option String
  hospitalName : Option String
deriving DecidableEq, Repr

structure MedicineInfo where
  name : String
  dosage : Option String
  instruction : Option String
deriving DecidableEq, Repr

/-- `PrescriptionDetail extends PrescriptionSummary` with pharmacy and
medicines; only the claim-relevant fields are carried. -/
structure PrescriptionDetail where
  prescriptionId : Nat
  medicalRecordId : Nat
  issueDate : String
  status : PrescriptionStatus
  diagnosis : String
  patientName : String
  pharmacy : Option PharmacySummary
  medicines : List MedicineInfo
deriving DecidableEq, Repr

/-! ### Failures caught by handlers

Every handler catches a thrown value and distinguishes `error instanceof
ApiError` (whose `message` is displayed) from any other thrown value
(a hard-coded fallback string is displayed). -/

inductive ReqError
  | apiErr (message : String)
  | otherErr
deriving DecidableEq, Repr

/-- `error instanceof ApiError ? error.message : fallback`. -/
def ReqError.displayText (fallback : String) : ReqError → String
  | .apiErr m => m
  | .otherErr => fallback

/-! ### Observable steps: network requests and the outbound notification -/

inductive ApiCall
  | getPrescriptions
  | getPrescriptionDetail (id : Nat)
  | patchStatus (id : Nat) (status : PrescriptionStatus)
  | searchPharmacies (keyword : String)
  | dispatchPrescription (prescriptionId : String) (pharmacyId : Nat)
deriving DecidableEq, Repr

inductive Step
  | call (c : ApiCall)
  | statusUpdatedSignal
deriving DecidableEq, Repr

/-- The status-update (`PATCH .../status`) requests occurring in a trace. -/
def statusUpdateCalls (steps : List Step) : List (Nat × PrescriptionStatus) :=
  steps.filterMap fun st =>
    match st with
    | .call (.patchStatus id status) => some (id, status)
    | _ => none

/-- The network requests occurring in a trace. -/
def networkCalls (steps : List Step) : List ApiCall :=
  steps.filterMap fun st =>
    match st with
    | .call c => some c
    | _ => none

/-! ### `lib/api.ts`: `apiRequest` error handling

The decoded response body, as seen after the
`contentType.includes('application/json') ? response.json() :
response.text()` branch.  Object field values are modelled after the
`String(...)` conversion the code applies. -/

inductive JsPayload
  | jsStr (s : String)
  | jsObj (fields : List (String × String))
  | jsNull
  | jsOther
deriving DecidableEq, Repr

def genericFailureMessage : String := "요청이 실패했습니다."

/-- The JS expression
`(typeof payload === 'string' && payload) || (typeof payload === 'object'
&& payload !== null && 'message' in payload ? String(payload.message)
: '요청이 실패했습니다.')` -/
def apiErrorMessage (payload : JsPayload) : String :=
  match payload with
  | .jsStr s => if s ≠ "" then s else genericFailureMessage
  | .jsObj fields =>
      match fields.lookup "message" with
      | some m => m
      | none => genericFailureMessage
  | .jsNull => genericFailureMessage
  | .jsOther => genericFailureMessage

structure ApiErrorModel where
  message : String
  status : Nat
  payload : JsPayload
deriving DecidableEq, Repr

/-- `Response.ok`: status in the range 200–299. -/
def responseOk (status : Nat) : Bool := decide (200 ≤ status ∧ status ≤ 299)

/-- `apiRequest` applied to a completed HTTP response: a 2xx response returns the
payload, any other throws `ApiError` with the computed message.  The second
component counts the `fetch` invocations performed: always exactly one —
the function never retries. -/
def apiRequest (status : Nat) (payload : JsPayload) :
    Except ApiErrorModel JsPayload × Nat :=
  if responseOk status then (.ok payload, 1)
  else (.error { message := apiErrorMessage payload, status := status,
                 payload := payload }, 1)

/-! ### `PrescriptionsPanel.tsx` -/

def pharmacistStatusSteps : List PrescriptionStatus :=
  [.RECEIVED, .DISPENSING, .COMPLETED]

/-- `getNextStatus`: `indexOf` on `pharmacistStatusSteps`, `-1 → null`,
then `steps[currentIndex + 1] ?? null`. -/
def getNextStatus (current : PrescriptionStatus) : Option PrescriptionStatus :=
  match pharmacistStatusSteps.indexOf? current with
  | none => none
  | some i => pharmacistStatusSteps.get? (i + 1)

structure PanelState where
  prescriptions : List PrescriptionSummary
  selectedId : Option Nat
  selectedDetail : Option PrescriptionDetail
  loading : Bool
  message : Option String
deriving DecidableEq, Repr

/-- The responses the remote system would give to the panel's requests. -/
structure Api where
  listResp : Except ReqError (List PrescriptionSummary)
  detailResp : Nat → Except ReqError PrescriptionDetail
  patchResp : Nat → PrescriptionStatus → Except ReqError Unit

def listErrorFallback : String := "처방전을 불러오지 못했습니다."
def detailErrorFallback : String := "처방전 상세를 불러오지 못했습니다."
def noSuccessorMessage : String := "완료된 처방전은 더 이상 변경할 수 없습니다."
def statusUpdatedMessage : String := "상태가 업데이트되었습니다."
def advanceErrorFallback : String := "상태 업데이트에 실패했습니다."

/-- `selectPrescription(id)`: sets `selectedId` first, returns early when no
token, then fetches the detail; success replaces `selectedDetail`, failure
sets only `message`. -/
def selectPrescription (token : Option String) (api : Api) (s : PanelState)
    (id : Nat) : PanelState × List Step :=
  let s := { s with selectedId := some id }
  if token.isNone then (s, [])
  else
    match api.detailResp id with
    | .ok detail =>
        ({ s with selectedDetail := some detail },
          [.call (.getPrescriptionDetail id)])
    | .error e =>
        ({ s with message := some (e.displayText detailErrorFallback) },
          [.call (.getPrescriptionDetail id)])

/-- `loadPrescriptions()`: full refresh of the list with selection
revalidation; `finally` clears `loading`. -/
def loadPrescriptions (token : Option String) (api : Api) (s : PanelState) :
    PanelState × List Step :=
  if token.isNone then (s, [])
  else
    let s := { s with loading := true, message := none }
    match api.listResp with
    | .error e =>
        ({ s with
            message := some (e.displayText listErrorFallback)
            loading := false },
          [.call .getPrescriptions])
    | .ok data =>
        let s := { s with prescriptions := data }
        match data with
        | [] =>
            ({ s with
                selectedDetail := none
                selectedId := none
                loading := false },
              [.call .getPrescriptions])
        | first :: _ =>
            match s.selectedId with
            | none =>
                let r := selectPrescription token api s first.prescriptionId
                ({ r.1 with loading := false },
                  .call .getPrescriptions :: r.2)
            | some sid =>
                if data.any (fun item => item.prescriptionId == sid) then
                  ({ s with loading := false }, [.call .getPrescriptions])
                else
                  let r := selectPrescription token api s first.prescriptionId
                  ({ r.1 with loading := false },
                    .call .getPrescriptions :: r.2)

/-- `handleAdvanceStatus()`: silent early return unless a detail is
selected, a token is present and the role is `PHARMACIST`; local
no-successor rejection; otherwise one `PATCH` request, and on success a
detail re-fetch, a list refresh, the success message, and the
`onStatusUpdated?.()` notification, in that order. -/
def handleAdvanceStatus (token : Option String) (role : Option Role)
    (api : Api) (s : PanelState) : PanelState × List Step :=
  match s.selectedDetail with
  | none => (s, [])
  | some detail =>
      if token.isNone ∨ role ≠ some Role.PHARMACIST then (s, [])
      else
        match getNextStatus detail.status with
        | none => ({ s with message := some noSuccessorMessage }, [])
        | some nextStatus =>
            let s := { s with loading := true, message := none }
            match api.patchResp detail.prescriptionId nextStatus with
            | .error e =>
                ({ s with
                    message := some (e.displayText advanceErrorFallback)
                    loading := false },
                  [.call (.patchStatus detail.prescriptionId nextStatus)])
            | .ok _ =>
                let r1 := selectPrescription token api s detail.prescriptionId
                let r2 := loadPrescriptions token api r1.1
                ({ r2.1 with
                    message := some statusUpdatedMessage
                    loading := false },
                  .call (.patchStatus detail.prescriptionId nextStatus) ::
                    (r1.2 ++ (r2.2 ++ [.statusUpdatedSignal])))

/-! ### `PharmacySearchPanel.tsx` -/

structure SearchState where
  keyword : String
  results : List PharmacySummary
  selectedPharmacyId : Option Nat
  prescriptionId : String
  message : Option String
  loading : Bool
deriving DecidableEq, Repr

structure PharmacyApi where
  searchResp : String → Except ReqError (List PharmacySummary)
  dispatchResp : String → Nat → Except ReqError Unit

def searchErrorFallback : String := "약국 검색에 실패했습니다."
def dispatchSuccessMessage : String := "처방전을 약국으로 전송했습니다."
def dispatchErrorFallback : String := "처방전 전송에 실패했습니다."

/-- The template literal `` `${data.length}개의 약국을 찾았습니다.` ``. -/
def searchFoundMessage (n : Nat) : String :=
  toString n ++ "개의 약국을 찾았습니다."

/-- `handleSearch`: silent early return on empty keyword or when disabled
(`role !== 'DOCTOR' || !token`); on success replaces the results,
auto-selects the first result only when the list is non-empty, and reports
the result count. -/
def handleSearch (token : Option String) (role : Option Role)
    (api : PharmacyApi) (s : SearchState) : SearchState × List Step :=
  let disabled : Bool := role ≠ some Role.DOCTOR ∨ token.isNone
  if s.keyword = "" ∨ disabled then (s, [])
  else
    let s := { s with loading := true, message := none }
    match api.searchResp s.keyword with
    | .error e =>
        ({ s with
            message := some (e.displayText searchErrorFallback)
            loading := false },
          [.call (.searchPharmacies s.keyword)])
    | .ok data =>
        let s := { s with results := data }
        let s :=
          match data with
          | [] => s
          | first :: _ => { s with selectedPharmacyId := some first.id }
        ({ s with
            message := some (searchFoundMessage data.length)
            loading := false },
          [.call (.searchPharmacies s.keyword)])

/-- `handleDispatch`: silent early return when disabled, when no pharmacy
id is selected (JS falsiness: a selected id of `0` also blocks), or when
the prescription-id input is empty; otherwise one `POST .../dispatch`
request.  Success shows the success message and clears the input; failure
shows the error message. -/
def handleDispatch (token : Option String) (role : Option Role)
    (api : PharmacyApi) (s : SearchState) : SearchState × List Step :=
  let disabled : Bool := role ≠ some Role.DOCTOR ∨ token.isNone
  match s.selectedPharmacyId with
  | none => (s, [])
  | some pharmacyId =>
      if disabled ∨ pharmacyId = 0 ∨ s.prescriptionId = "" then (s, [])
      else
        let s := { s with loading := true, message := none }
        match api.dispatchResp s.prescriptionId pharmacyId with
        | .ok _ =>
            ({ s with
                message := some dispatchSuccessMessage
                prescriptionId := ""
                loading := false },
              [.call (.dispatchPrescription s.prescriptionId pharmacyId)])
        | .error e =>
            ({ s with
                message := some (e.displayText dispatchErrorFallback)
                loading := false },
              [.call (.dispatchPrescription s.prescriptionId pharmacyId)])

/-! ### `App.tsx`: the pending-count aggregator -/

/-- `refreshPendingReceivedCount`: for a logged-in pharmacist, fetches the
prescription list and counts the entries with status `RECEIVED`; any other
role/session, or a failed fetch, resets the count to `null`. -/
def refreshPendingReceivedCount (role : Option Role) (token : Option String)
    (listResp : Except ReqError (List PrescriptionSummary)) :
    Option Nat × List Step :=
  if role ≠ some Role.PHARMACIST ∨ token.isNone then (none, [])
  else
    match listResp with
    | .ok data =>
        (some ((data.filter
            (fun item => item.status == PrescriptionStatus.RECEIVED)).length),
          [.call .getPrescriptions])
    | .error _ => (none, [.call .getPrescriptions])

/-! ### The remote dispatch endpoint (not part of this repository)

`POST /prescriptions/{id}/dispatch` is served by the external
record/prescription service; only its caller is in `src/`. -/

structure ServerPrescription where
  prescriptionId : Nat
  status : PrescriptionStatus
  pharmacyId : Option Nat
deriving DecidableEq, Repr

/-- Modelled from the spec: the external record/prescription service's
dispatch endpoint, absent from `src/` (the repository holds only the
front-end).  Per §4.2 a successful dispatch is a "single request that
atomically assigns the pharmacy and transitions status CREATED → RECEIVED";
the CREATED-state check is "enforced by the external record/prescription
service", and a violation surfaces as a remote failure (e.g. "already
dispatched"). -/
def serverDispatch (p : ServerPrescription) (pharmacyId : Nat) :
    Except String ServerPrescription :=
  if p.status = .CREATED ∧ p.pharmacyId = none then
    .ok { p with status := .RECEIVED, pharmacyId := some pharmacyId }
  else
    .error "already dispatched"

/-! ### Concrete fixtures used by witnesses and counterexamples -/

def sampleSummary (id : Nat) (st : PrescriptionStatus) : PrescriptionSummary :=
  { prescriptionId := id, medicalRecordId := 1, issueDate := "2024-05-01",
    status := st, diagnosis := "감기", patientName := "홍길동" }

def sampleDetail (id : Nat) (st : PrescriptionStatus) : PrescriptionDetail :=
  { prescriptionId := id, medicalRecordId := 1, issueDate := "2024-05-01",
    status := st, diagnosis := "감기", patientName := "홍길동",
    pharmacy := none, medicines := [] }

def samplePharmacy (id : Nat) : PharmacySummary :=
  { id := id, name := "중앙약국", address := "서울", phone := none,
    hospitalName := none }

def panelStateWith (d : PrescriptionDetail) : PanelState :=
  { prescriptions := [], selectedId := some d.prescriptionId,
    selectedDetail := some d, loading := false, message := none }

def okApi : Api :=
  { listResp := .ok [sampleSummary 12 .DISPENSING]
    detailResp := fun i => .ok (sampleDetail i .DISPENSING)
    patchResp := fun _ _ => .ok () }

def failDetailApi : Api :=
  { listResp := .ok []
    detailResp := fun _ => .error (.apiErr "서버 오류")
    patchResp := fun _ _ => .ok () }

def okPharmacyApi : PharmacyApi :=
  { searchResp := fun _ => .ok [samplePharmacy 7]
    dispatchResp := fun _ _ => .ok () }

def emptySearchApi : PharmacyApi :=
  { searchResp := fun _ => .ok []
    dispatchResp := fun _ _ => .ok () }

def searchStateWith (pharmacyId : Option Nat) (rx : String) : SearchState :=
  { keyword := "center", results := [], selectedPharmacyId := pharmacyId,
    prescriptionId := rx, message := none, loading := false }

def fallbackApi : Api :=
  { listResp := .ok [sampleSummary 5 .CREATED]
    detailResp := fun i => .ok (sampleDetail i .CREATED)
    patchResp := fun _ _ => .ok () }

/-! ## Helper lemmas -/

theorem statusUpdateCalls_nil : statusUpdateCalls [] = [] := rfl

theorem statusUpdateCalls_append (l1 l2 : List Step) :
    statusUpdateCalls (l1 ++ l2) = statusUpdateCalls l1 ++ statusUpdateCalls l2 :=
  List.filterMap_append l1 l2 _

theorem statusUpdateCalls_cons_patch (id : Nat) (st : PrescriptionStatus)
    (l : List Step) :
    statusUpdateCalls (Step.call (.patchStatus id st) :: l)
      = (id, st) :: statusUpdateCalls l := rfl

theorem selectPrescription_selectedId (token : Option String) (api : Api)
    (s : PanelState) (id : Nat) :
    (selectPrescription token api s id).1.selectedId = some id := by
  unfold selectPrescription
  split
  · rfl
  · split <;> rfl

theorem statusUpdateCalls_selectPrescription (token : Option String) (api : Api)
    (s : PanelState) (id : Nat) :
    statusUpdateCalls (selectPrescription token api s id).2 = [] := by
  unfold selectPrescription
  split
  · rfl
  · split <;> rfl

theorem statusUpdateCalls_loadPrescriptions (token : Option String) (api : Api)
    (s : PanelState) :
    statusUpdateCalls (loadPrescriptions token api s).2 = [] := by
  unfold loadPrescriptions
  split
  · rfl
  · split
    · rfl
    · split
      · rfl
      · dsimp only
        split
        · exact statusUpdateCalls_selectPrescription token api _ _
        · split
          · rfl
          · exact statusUpdateCalls_selectPrescription token api _ _

theorem count_signal_selectPrescription (token : Option String) (api : Api)
    (s : PanelState) (id : Nat) :
    (selectPrescription token api s id).2.count Step.statusUpdatedSignal = 0 := by
  unfold selectPrescription
  split
  · rfl
  · split <;> rfl

theorem count_signal_loadPrescriptions (token : Option String) (api : Api)
    (s : PanelState) :
    (loadPrescriptions token api s).2.count Step.statusUpdatedSignal = 0 := by
  unfold loadPrescriptions
  split
  · rfl
  · split
    · rfl
    · split
      · rfl
      · dsimp only
        split
        · rw [List.count_cons, count_signal_selectPrescription]
          rfl
        · split
          · rfl
          · rw [List.count_cons, count_signal_selectPrescription]
            rfl

theorem handleDispatch_blocked (token : Option String) (role : Option Role)
    (api : PharmacyApi) (s : SearchState)
    (h : s.selectedPharmacyId = none ∨ s.prescriptionId = "") :
    handleDispatch token role api s = (s, []) := by
  unfold handleDispatch
  cases hph : s.selectedPharmacyId with
  | none => rfl
  | some pid =>
      rcases h with h | h
      · rw [hph] at h
        cases h
      · dsimp only
        rw [if_pos (Or.inr (Or.inr h))]

/-- C1: the advance operation computes the next status as the immediate
successor in CREATED → RECEIVED → DISPENSING → COMPLETED: from `RECEIVED`
it issues a single status-update request targeting `DISPENSING`, from
`DISPENSING` one targeting `COMPLETED`, and from `CREATED` or `COMPLETED`
it fails locally with the no-successor message and issues no network
call. -/
theorem advance_follows_successor (token : String) (api : Api)
    (s : PanelState) (d : PrescriptionDetail)
    (hd : s.selectedDetail = some d) :
    (d.status = .RECEIVED →
      statusUpdateCalls
          (handleAdvanceStatus (some token) (some .PHARMACIST) api s).2
        = [(d.prescriptionId, .DISPENSING)]) ∧
    (d.status = .DISPENSING →
      statusUpdateCalls
          (handleAdvanceStatus (some token) (some .PHARMACIST) api s).2
        = [(d.prescriptionId, .COMPLETED)]) ∧
    (d.status = .CREATED ∨ d.status = .COMPLETED →
      handleAdvanceStatus (some token) (some .PHARMACIST) api s
        = ({ s with message := some noSuccessorMessage }, [])) := by
  have hnext : ∀ next, getNextStatus d.status = some next →
      statusUpdateCalls
          (handleAdvanceStatus (some token) (some .PHARMACIST) api s).2
        = [(d.prescriptionId, next)] := by
    intro next hnx
    unfold handleAdvanceStatus
    rw [hd]
    dsimp only
    rw [if_neg (by simp)]
    rw [hnx]
    dsimp only
    cases hp : api.patchResp d.prescriptionId next with
    | error e => rfl
    | ok u =>
        rw [statusUpdateCalls_cons_patch, statusUpdateCalls_append,
          statusUpdateCalls_append, statusUpdateCalls_selectPrescription,
          statusUpdateCalls_loadPrescriptions]
        rfl
  refine ⟨fun hst => hnext _ (by rw [hst]; rfl),
          fun hst => hnext _ (by rw [hst]; rfl), fun hst => ?_⟩
  have hnone : getNextStatus d.status = none := by
    rcases hst with h | h <;> rw [h] <;> rfl
  unfold handleAdvanceStatus
  rw [hd]
  dsimp only
  rw [if_neg (by simp)]
  rw [hnone]

/-- Witness for C1 at a concrete `RECEIVED` prescription. -/
theorem advance_follows_successor_witness :
    statusUpdateCalls
        (handleAdvanceStatus (some "tok") (some .PHARMACIST) okApi
          (panelStateWith (sampleDetail 12 .RECEIVED))).2
      = [(12, .DISPENSING)] :=
  (advance_follows_successor "tok" okApi
      (panelStateWith (sampleDetail 12 .RECEIVED))
      (sampleDetail 12 .RECEIVED) rfl).1 rfl

/-- C2: after every successful list refresh: an empty list clears both the
selected id and the selected detail; when nothing was selected, or the
previously selected id is absent from the non-empty new list, the selection
falls back to the first element; when the previously selected id is still
present, the selection and the detail are unchanged. -/
theorem listRefresh_selection (token : String) (api : Api) (s : PanelState)
    (data : List PrescriptionSummary) (hok : api.listResp = .ok data) :
    (data = [] →
      (loadPrescriptions (some token) api s).1.selectedId = none ∧
      (loadPrescriptions (some token) api s).1.selectedDetail = none) ∧
    (∀ first rest, data = first :: rest →
      (s.selectedId = none →
        (loadPrescriptions (some token) api s).1.selectedId
          = some first.prescriptionId) ∧
      (∀ i, s.selectedId = some i →
        data.any (fun item => item.prescriptionId == i) = false →
        (loadPrescriptions (some token) api s).1.selectedId
          = some first.prescriptionId) ∧
      (∀ i, s.selectedId = some i →
        data.any (fun item => item.prescriptionId == i) = true →
        (loadPrescriptions (some token) api s).1.selectedId = some i ∧
        (loadPrescriptions (some token) api s).1.selectedDetail
          = s.selectedDetail)) := by
  unfold loadPrescriptions
  rw [if_neg (by simp), hok]
  refine ⟨fun hdata => ?_, fun first rest hdata => ?_⟩
  · subst hdata
    exact ⟨rfl, rfl⟩
  · subst hdata
    dsimp only
    refine ⟨fun hsel => ?_, fun i hsel hany => ?_, fun i hsel hany => ?_⟩
    · rw [hsel]
      dsimp only
      exact selectPrescription_selectedId _ _ _ _
    · rw [hsel]
      dsimp only
      rw [if_neg (by simp [hany])]
      dsimp only
      exact selectPrescription_selectedId _ _ _ _
    · rw [hsel]
      dsimp only
      rw [if_pos hany]
      exact ⟨rfl, rfl⟩

/-- Witness for C2: the previously selected id 12 is absent from the new
list `[#5]`, so the selection falls back to prescription 5. -/
theorem listRefresh_selection_witness :
    (loadPrescriptions (some "tok") fallbackApi
        (panelStateWith (sampleDetail 12 .RECEIVED))).1.selectedId = some 5 :=
  ((listRefresh_selection "tok" fallbackApi
      (panelStateWith (sampleDetail 12 .RECEIVED))
      [sampleSummary 5 .CREATED] rfl).2 (sampleSummary 5 .CREATED) [] rfl).2.1
    12 rfl (by decide)

/-- C3 counterexample: a doctor invoking advance on a selected detail is a
silent no-op — no request is issued, but contrary to the claim no
user-visible message is surfaced either: the state (message `none`
included) is unchanged. -/
theorem advance_nonpharmacist_silent_cex :
    handleAdvanceStatus (some "tok") (some .DOCTOR) okApi
        (panelStateWith (sampleDetail 12 .RECEIVED))
      = (panelStateWith (sampleDetail 12 .RECEIVED), []) ∧
    (panelStateWith (sampleDetail 12 .RECEIVED)).message = none :=
  ⟨rfl, rfl⟩

/-- C3 (amended): every invocation of advance with an actor role other than
`PHARMACIST` issues no remote request and is rejected locally, silently:
the state is returned unchanged (no `Unauthorized` message is shown) and no
notification is emitted. -/
theorem advance_nonpharmacist_no_request (token : Option String)
    (role : Option Role) (api : Api) (s : PanelState)
    (hrole : role ≠ some Role.PHARMACIST) :
    handleAdvanceStatus token role api s = (s, []) := by
  unfold handleAdvanceStatus
  cases hsel : s.selectedDetail with
  | none => rfl
  | some d =>
      dsimp only
      rw [if_pos (Or.inr hrole)]

/-- Witness for the amended C3 at a concrete doctor invocation. -/
theorem advance_nonpharmacist_no_request_witness :
    handleAdvanceStatus (some "tok") (some .DOCTOR) fallbackApi
        (panelStateWith (sampleDetail 3 .DISPENSING))
      = (panelStateWith (sampleDetail 3 .DISPENSING), []) :=
  advance_nonpharmacist_no_request (some "tok") (some .DOCTOR) fallbackApi
    (panelStateWith (sampleDetail 3 .DISPENSING)) (by decide)

/-- C4 counterexample: dispatch with no pharmacy selected and a prescription
id entered issues no request, but contrary to the claim no user-visible
`ValidationGap` message is surfaced: the state (message `none` included) is
unchanged. -/
theorem dispatch_missing_selection_silent_cex :
    handleDispatch (some "tok") (some .DOCTOR) okPharmacyApi
        (searchStateWith none "12")
      = (searchStateWith none "12", []) ∧
    (searchStateWith none "12").message = none :=
  ⟨rfl, rfl⟩

/-- C4 (amended): every invocation of dispatch in which no pharmacy id is
selected or no prescription id is entered issues no network request and is
rejected silently: the state is returned unchanged, with no message
shown (the UI instead disables the dispatch controls). -/
theorem dispatch_missing_selection_no_request (token : Option String)
    (role : Option Role) (api : PharmacyApi) (s : SearchState)
    (h : s.selectedPharmacyId = none ∨ s.prescriptionId = "") :
    handleDispatch token role api s = (s, []) := by
  unfold handleDispatch
  cases hph : s.selectedPharmacyId with
  | none => rfl
  | some pid =>
      rcases h with h | h
      · rw [hph] at h
        cases h
      · dsimp only
        rw [if_pos (Or.inr (Or.inr h))]

/-- Witness for the amended C4: no pharmacy selected. -/
theorem dispatch_missing_selection_no_request_witness :
    handleDispatch (some "tok") (some .DOCTOR) okPharmacyApi
        (searchStateWith none "34")
      = (searchStateWith none "34", []) :=
  dispatch_missing_selection_no_request (some "tok") (some .DOCTOR)
    okPharmacyApi (searchStateWith none "34") (Or.inl rfl)

/-- C5: a failed detail fetch leaves the previously loaded detail state
untouched and surfaces the error as the panel message; the detail state
changes only on a successful fetch, which replaces it with the fetched
detail. -/
theorem getDetail_failure_preserves_detail (token : String) (api : Api)
    (s : PanelState) (id : Nat) :
    (∀ e, api.detailResp id = .error e →
      (selectPrescription (some token) api s id).1.selectedDetail
          = s.selectedDetail ∧
      (selectPrescription (some token) api s id).1.message
          = some (e.displayText detailErrorFallback)) ∧
    (∀ d, api.detailResp id = .ok d →
      (selectPrescription (some token) api s id).1.selectedDetail = some d) := by
  constructor
  · intro e he
    unfold selectPrescription
    rw [if_neg (by simp), he]
    exact ⟨rfl, rfl⟩
  · intro d hd
    unfold selectPrescription
    rw [if_neg (by simp), hd]

/-- Witness for C5 at a concrete failing fetch. -/
theorem getDetail_failure_preserves_detail_witness :
    (selectPrescription (some "tok") failDetailApi
        (panelStateWith (sampleDetail 12 .RECEIVED)) 3).1.selectedDetail
      = (panelStateWith (sampleDetail 12 .RECEIVED)).selectedDetail ∧
    (selectPrescription (some "tok") failDetailApi
        (panelStateWith (sampleDetail 12 .RECEIVED)) 3).1.message
      = some "서버 오류" :=
  (getDetail_failure_preserves_detail "tok" failDetailApi
      (panelStateWith (sampleDetail 12 .RECEIVED)) 3).1
    (.apiErr "서버 오류") rfl

/-- C10: selecting a prescription records the new selected id before the
detail fetch is attempted, so after a failed fetch the selected id is the
newly requested id while the displayed detail is still the previously
loaded one — the selected id and the shown detail's `prescriptionId` may
disagree. -/
theorem select_sets_id_before_fetch (token : String) (api : Api)
    (s : PanelState) (id : Nat) :
    (selectPrescription (some token) api s id).1.selectedId = some id ∧
    (∀ e d, api.detailResp id = .error e → s.selectedDetail = some d →
      (selectPrescription (some token) api s id).1.selectedId = some id ∧
      (selectPrescription (some token) api s id).1.selectedDetail = some d) := by
  refine ⟨selectPrescription_selectedId _ _ _ _, fun e d he hd => ?_⟩
  refine ⟨selectPrescription_selectedId _ _ _ _, ?_⟩
  unfold selectPrescription
  rw [if_neg (by simp), he, ← hd]

/-- Witness for C10: after requesting prescription 3 while prescription 12
was displayed and the fetch fails, the selected id is 3 but the displayed
detail still belongs to prescription 12. -/
theorem select_sets_id_before_fetch_witness :
    (selectPrescription (some "tok") failDetailApi
        (panelStateWith (sampleDetail 12 .RECEIVED)) 3).1.selectedId = some 3 ∧
    (selectPrescription (some "tok") failDetailApi
        (panelStateWith (sampleDetail 12 .RECEIVED)) 3).1.selectedDetail
      = some (sampleDetail 12 .RECEIVED) :=
  (select_sets_id_before_fetch "tok" failDetailApi
      (panelStateWith (sampleDetail 12 .RECEIVED)) 3).2
    (.apiErr "서버 오류") (sampleDetail 12 .RECEIVED) rfl rfl

/-- C6 counterexample: a successful dispatch (the success message is shown)
fires no pending-count signal: the dispatch coordinator has no
status-updated callback, so the trace contains zero notifications. -/
theorem dispatch_success_no_signal_cex :
    (handleDispatch (some "tok") (some .DOCTOR) okPharmacyApi
        (searchStateWith (some 7) "12")).1.message
      = some dispatchSuccessMessage ∧
    (handleDispatch (some "tok") (some .DOCTOR) okPharmacyApi
        (searchStateWith (some 7) "12")).2.count Step.statusUpdatedSignal
      = 0 :=
  ⟨rfl, rfl⟩

/-- C6 (amended): a successful dispatch of a CREATED prescription makes the
(spec-modelled) external service set its status to RECEIVED with the chosen
pharmacy attached, and the client surfaces the success message and clears
the prescription-id input — but no pending-count signal fires: dispatch
never emits the status-updated notification (only advance does). -/
theorem dispatch_success_server_effect_no_signal (p : ServerPrescription)
    (pharmacyId : Nat) (hst : p.status = .CREATED) (hph : p.pharmacyId = none) :
    serverDispatch p pharmacyId
      = .ok { p with status := .RECEIVED, pharmacyId := some pharmacyId } ∧
    (∀ (token : Option String) (role : Option Role) (api : PharmacyApi)
        (s : SearchState),
      (handleDispatch token role api s).2.count Step.statusUpdatedSignal = 0) ∧
    (∀ (token : String) (api : PharmacyApi) (s : SearchState) (pid : Nat),
      s.selectedPharmacyId = some pid → pid ≠ 0 → s.prescriptionId ≠ "" →
      api.dispatchResp s.prescriptionId pid = .ok () →
      (handleDispatch (some token) (some .DOCTOR) api s).1.message
          = some dispatchSuccessMessage ∧
      (handleDispatch (some token) (some .DOCTOR) api s).1.prescriptionId
          = "") := by
  refine ⟨?_, fun token role api s => ?_,
    fun token api s pid hsel hpid hrx hok => ?_⟩
  · unfold serverDispatch
    rw [if_pos ⟨hst, hph⟩]
  · unfold handleDispatch
    split
    · rfl
    · dsimp only
      split
      · rfl
      · split <;> rfl
  · unfold handleDispatch
    rw [hsel]
    dsimp only
    rw [if_neg (by simp [hpid, hrx])]
    rw [hok]
    exact ⟨rfl, rfl⟩

/-- Witness for the amended C6: prescription 12, pharmacy 7. -/
theorem dispatch_success_server_effect_no_signal_witness :
    serverDispatch ⟨12, .CREATED, none⟩ 7 = .ok ⟨12, .RECEIVED, some 7⟩ ∧
    (handleDispatch (some "tok") (some .DOCTOR) okPharmacyApi
        (searchStateWith (some 7) "12")).2.count Step.statusUpdatedSignal
      = 0 ∧
    (handleDispatch (some "tok") (some .DOCTOR) okPharmacyApi
        (searchStateWith (some 7) "12")).1.prescriptionId = "" :=
  ⟨(dispatch_success_server_effect_no_signal ⟨12, .CREATED, none⟩ 7
      rfl rfl).1,
   (dispatch_success_server_effect_no_signal ⟨12, .CREATED, none⟩ 7
      rfl rfl).2.1 (some "tok") (some .DOCTOR) okPharmacyApi
      (searchStateWith (some 7) "12"),
   ((dispatch_success_server_effect_no_signal ⟨12, .CREATED, none⟩ 7
      rfl rfl).2.2 "tok" okPharmacyApi (searchStateWith (some 7) "12") 7
      rfl (by decide) (by decide) rfl).2⟩

/-- C7: every successful advance emits the status-updated notification
exactly once, as the final step after the state-refreshing requests, and
the pending-count aggregator it triggers computes its count as exactly the
number of prescriptions in the fetched list whose status is RECEIVED. -/
theorem advance_signal_once_pending_count (token : String) (api : Api)
    (s : PanelState) (d : PrescriptionDetail) (next : PrescriptionStatus)
    (hd : s.selectedDetail = some d)
    (hn : getNextStatus d.status = some next)
    (hok : api.patchResp d.prescriptionId next = .ok ()) :
    ((handleAdvanceStatus (some token) (some .PHARMACIST) api s).2.count
        Step.statusUpdatedSignal = 1 ∧
     (handleAdvanceStatus (some token) (some .PHARMACIST) api s).2.getLast?
        = some Step.statusUpdatedSignal) ∧
    (∀ (token2 : String) (data : List PrescriptionSummary),
      (refreshPendingReceivedCount (some .PHARMACIST) (some token2)
          (.ok data)).1
        = some (data.countP (fun item => item.status == .RECEIVED))) := by
  refine ⟨?_, fun token2 data => ?_⟩
  · unfold handleAdvanceStatus
    rw [hd]
    dsimp only
    rw [if_neg (by simp), hn]
    dsimp only
    rw [hok]
    dsimp only
    constructor
    · rw [List.count_cons, List.count_append, List.count_append,
        count_signal_selectPrescription, count_signal_loadPrescriptions]
      rfl
    · rw [show ∀ (x : Step) (l1 l2 : List Step),
          x :: (l1 ++ (l2 ++ [Step.statusUpdatedSignal]))
            = (x :: (l1 ++ l2)) ++ [Step.statusUpdatedSignal] from
          fun x l1 l2 => by simp]
      exact List.getLast?_concat _
  · unfold refreshPendingReceivedCount
    rw [if_neg (by simp)]
    dsimp only
    rw [List.countP_eq_length_filter]

/-- Witness for C7: a `RECEIVED` prescription advanced successfully, and
the aggregator counting one `RECEIVED` entry among two. -/
theorem advance_signal_once_pending_count_witness :
    (handleAdvanceStatus (some "tok") (some .PHARMACIST) okApi
        (panelStateWith (sampleDetail 12 .RECEIVED))).2.count
        Step.statusUpdatedSignal = 1 ∧
    (refreshPendingReceivedCount (some .PHARMACIST) (some "tok2")
        (.ok [sampleSummary 12 .RECEIVED, sampleSummary 5 .CREATED])).1
      = some 1 :=
  ⟨(advance_signal_once_pending_count "tok" okApi
      (panelStateWith (sampleDetail 12 .RECEIVED)) (sampleDetail 12 .RECEIVED)
      .DISPENSING rfl rfl rfl).1.1,
   (advance_signal_once_pending_count "tok" okApi
      (panelStateWith (sampleDetail 12 .RECEIVED)) (sampleDetail 12 .RECEIVED)
      .DISPENSING rfl rfl rfl).2 "tok2"
      [sampleSummary 12 .RECEIVED, sampleSummary 5 .CREATED]⟩

/-- C8: every non-2xx response performs exactly one fetch (no retry) and
fails with an error carrying the response status and the human-readable
reason: the plain-text body when the body is a non-empty string, else the
`message` field when the body is a JSON object containing one, else the
generic failure string. -/
theorem non2xx_error_reason (status : Nat) (payload : JsPayload)
    (hbad : responseOk status = false) :
    (apiRequest status payload).2 = 1 ∧
    (apiRequest status payload).1
      = .error { message := apiErrorMessage payload, status := status,
                 payload := payload } ∧
    (∀ b, payload = .jsStr b → b ≠ "" → apiErrorMessage payload = b) ∧
    (∀ fields m, payload = .jsObj fields → fields.lookup "message" = some m →
      apiErrorMessage payload = m) ∧
    ((payload = .jsStr "" ∨ payload = .jsNull ∨ payload = .jsOther ∨
      ∃ fields, payload = .jsObj fields ∧ fields.lookup "message" = none) →
      apiErrorMessage payload = genericFailureMessage) := by
  refine ⟨?_, ?_, fun b hb hne => ?_, fun fields m hf hm => ?_,
    fun hgen => ?_⟩
  · simp [apiRequest, hbad]
  · simp [apiRequest, hbad]
  · subst hb
    unfold apiErrorMessage
    dsimp only
    rw [if_pos hne]
  · subst hf
    simp [apiErrorMessage, hm]
  · rcases hgen with h | h | h | ⟨fields, hf, hm⟩ <;> subst_vars <;>
      simp [apiErrorMessage, *]

/-- Witness for C8: status 404 with a JSON body carrying a `message`. -/
theorem non2xx_error_reason_witness :
    (apiRequest 404 (.jsObj [("message", "이미 전송된 처방전입니다.")])).2 = 1 ∧
    apiErrorMessage (.jsObj [("message", "이미 전송된 처방전입니다.")])
      = "이미 전송된 처방전입니다." :=
  ⟨(non2xx_error_reason 404
      (.jsObj [("message", "이미 전송된 처방전입니다.")]) rfl).1,
   (non2xx_error_reason 404
      (.jsObj [("message", "이미 전송된 처방전입니다.")]) rfl).2.2.2.1
      [("message", "이미 전송된 처방전입니다.")] "이미 전송된 처방전입니다."
      rfl rfl⟩

/-- C9 counterexample: a search returning zero results does not clear a
previously selected pharmacy: with pharmacy 7 selected beforehand, the
selection survives the empty search and a subsequent dispatch is NOT
blocked — it issues the dispatch request. -/
theorem search_zero_results_keeps_selection_cex :
    (handleSearch (some "tok") (some .DOCTOR) emptySearchApi
        (searchStateWith (some 7) "12")).1.selectedPharmacyId = some 7 ∧
    (handleDispatch (some "tok") (some .DOCTOR) emptySearchApi
        (handleSearch (some "tok") (some .DOCTOR) emptySearchApi
          (searchStateWith (some 7) "12")).1).2
      = [Step.call (.dispatchPrescription "12" 7)] :=
  ⟨rfl, rfl⟩

/-- C9 (amended): a successful search leaves the pharmacy selection
unchanged when it returns zero results — so dispatch stays blocked only if
no pharmacy was selected beforehand — and auto-selects the first result
when it returns at least one. -/
theorem search_selection_reconciliation (token : String) (api : PharmacyApi)
    (s : SearchState) (data : List PharmacySummary)
    (hkw : s.keyword ≠ "")
    (hok : api.searchResp s.keyword = .ok data) :
    (data = [] →
      (handleSearch (some token) (some .DOCTOR) api s).1.selectedPharmacyId
        = s.selectedPharmacyId ∧
      (s.selectedPharmacyId = none →
        ∀ api2, handleDispatch (some token) (some .DOCTOR) api2
            (handleSearch (some token) (some .DOCTOR) api s).1
          = ((handleSearch (some token) (some .DOCTOR) api s).1, []))) ∧
    (∀ first rest, data = first :: rest →
      (handleSearch (some token) (some .DOCTOR) api s).1.selectedPharmacyId
        = some first.id) := by
  unfold handleSearch
  rw [if_neg (by simp [hkw])]
  dsimp only
  rw [hok]
  dsimp only
  refine ⟨fun hdata => ?_, fun first rest hdata => ?_⟩
  · subst hdata
    dsimp only
    refine ⟨rfl, fun hnone api2 => ?_⟩
    exact handleDispatch_blocked _ _ _ _ (Or.inl hnone)
  · subst hdata
    rfl

/-- Witness for the amended C9: an empty search with nothing selected keeps
the selection empty and blocks dispatch; a search returning pharmacy 7
auto-selects it. -/
theorem search_selection_reconciliation_witness :
    (handleSearch (some "tok") (some .DOCTOR) emptySearchApi
        (searchStateWith none "12")).1.selectedPharmacyId = none ∧
    handleDispatch (some "tok") (some .DOCTOR) okPharmacyApi
        (handleSearch (some "tok") (some .DOCTOR) emptySearchApi
          (searchStateWith none "12")).1
      = ((handleSearch (some "tok") (some .DOCTOR) emptySearchApi
          (searchStateWith none "12")).1, []) ∧
    (handleSearch (some "tok") (some .DOCTOR) okPharmacyApi
        (searchStateWith none "12")).1.selectedPharmacyId = some 7 :=
  ⟨((search_selection_reconciliation "tok" emptySearchApi
      (searchStateWith none "12") [] (by decide) rfl).1 rfl).1,
   ((search_selection_reconciliation "tok" emptySearchApi
      (searchStateWith none "12") [] (by decide) rfl).1 rfl).2 rfl
      okPharmacyApi,
   (search_selection_reconciliation "tok" okPharmacyApi
      (searchStateWith none "12") [samplePharmacy 7] (by decide) rfl).2
      (samplePharmacy 7) [] rfl⟩

end DBMedical
